import Mathlib

/-!
Shallow embedding of juhaku/watchmux (src/config.rs and src/main.rs).

The program runs a set of configured child processes, reads their output
line by line, tags each line and fans everything into one mpsc channel whose
receiver writes to stdout.  External behaviour (what the OS and the children
do) is an explicit oracle (`ProcBehavior`, `World`); everything the program
itself does is translated from the source.
-/

/-- An OS-level input-output error (std::io::Error), abstracted to its message. -/
abbrev IoError := String

/-- The std::process::ExitStatus type: `code` is `none` when the child was
terminated by a signal. -/
structure ExitStatus where
  code : Option Int
deriving DecidableEq, Repr

/-- The ExitStatus::success method: true exactly when the exit code is 0. -/
def ExitStatus.success (s : ExitStatus) : Bool := s.code == some 0

/-- A tokio JoinError as this program can observe it: the spawned
`child.wait()` task never panics, so the only join failure is cancellation via
`abort`. -/
inductive JoinError
  | cancelled
deriving DecidableEq, Repr

/-- The RunType enum of config.rs (serde names "shell" / "cmd"). -/
inductive RunType
  | Shell
  | Cmd
deriving DecidableEq, Repr

/-- The WatchError enum of config.rs. `SendError` carries the line that could
not be delivered, `AwaitFor` the gate's exit status. -/
inductive WatchError
  | IoChildProcess (e : IoError)
  | ChildProcessExecute (e : JoinError)
  | SendError (line : String)
  | AwaitFor (status : ExitStatus)
deriving DecidableEq, Repr

/-- One `next_line()` observation on a child output handle: a decoded text
line, or a UTF-8 decode failure (`Err`).  End of stream is the end of the
list. -/
inductive ReadItem
  | text (line : String)
  | decodeError
deriving DecidableEq, Repr

/-- The lines `next_line()` yields before end-of-stream or the first decode
error. -/
def readableLines : List ReadItem → List String
  | ReadItem.text l :: rest => l :: readableLines rest
  | _ => []

/-- The far end of the mpsc channel as the senders observe it: `none` means
the receiver stays open (every send succeeds); `some k` means exactly `k`
more sends succeed before the receiver is dropped and every later send
fails. -/
abbrev SinkBudget := Option Nat

/-- Equality of Except values is decidable when both components have
decidable equality. -/
instance [DecidableEq ε] [DecidableEq α] : DecidableEq (Except ε α) := fun x y =>
  match x, y with
  | Except.ok a, Except.ok b =>
    match decEq a b with
    | isTrue h => isTrue (by rw [h])
    | isFalse h => isFalse (fun hh => h (Except.ok.inj hh))
  | Except.error a, Except.error b =>
    match decEq a b with
    | isTrue h => isTrue (by rw [h])
    | isFalse h => isFalse (fun hh => h (Except.error.inj hh))
  | Except.ok _, Except.error _ => isFalse (fun hh => Except.noConfusion hh)
  | Except.error _, Except.ok _ => isFalse (fun hh => Except.noConfusion hh)

/-- Whether an Except value is the ok case (the Result::is_err test, negated). -/
def exOk : Except WatchError α → Bool
  | Except.ok _ => true
  | Except.error _ => false

/-- Rendering of ansi_term `Style::new().on(Color::Fixed(color)).paint(s)`:
the 256-color background escape, the text, then the reset sequence. -/
def paintOn (color : Nat) (s : String) : String :=
  "\x1b[48;5;" ++ toString color ++ "m" ++ s ++ "\x1b[0m"

/-- The string pushed for one output line by listen_out in config.rs
(lines 122-130): the painted tag is `"[ <title> ] "` with a trailing space
inside the painted region, then one further space, the line, and a newline. -/
def taggedLine (color : Nat) (title line : String) : String :=
  paintOn color ("[ " ++ title ++ " ] ") ++ " " ++ line ++ "\n"

/-- WatchProcess::listen_out of config.rs (lines 113-134): reads while
`next_line()` yields `Ok(Some(_))` (a decode error or end-of-stream ends the
loop and the function returns `Ok(())`), sending each formatted line into the
channel; a failed send returns `Err(SendError)` at once.  Returns the lines
actually delivered, the remaining sink budget, and the result. -/
def listen_out : List ReadItem → String → Nat → SinkBudget →
    List String × SinkBudget × Except WatchError Unit
  | [], _, _, b => ([], b, Except.ok ())
  | ReadItem.decodeError :: _, _, _, b => ([], b, Except.ok ())
  | ReadItem.text l :: rest, title, color, none =>
    let r := listen_out rest title color none
    (taggedLine color title l :: r.1, r.2.1, r.2.2)
  | ReadItem.text l :: _, title, color, some 0 =>
    ([], some 0, Except.error (WatchError.SendError (taggedLine color title l)))
  | ReadItem.text l :: rest, title, color, some (k+1) =>
    let r := listen_out rest title color (some k)
    (taggedLine color title l :: r.1, r.2.1, r.2.2)

/-- Helper for `splitOnSpace`: `acc` holds the characters of the current
piece in reverse. -/
def splitOnSpaceAux : List Char → List Char → List String
  | [], acc => [String.mk acc.reverse]
  | c :: rest, acc =>
    if c = ' ' then String.mk acc.reverse :: splitOnSpaceAux rest []
    else splitOnSpaceAux rest (c :: acc)

/-- Model of Rust `str::split(' ')`: cut the string at every single space
character, keeping empty pieces (an empty string yields one empty piece). -/
def splitOnSpace (s : String) : List String := splitOnSpaceAux s.data []

/-- The step of the fold in WatchProcess::run (config.rs lines 75-86): the
first token lands in the (initially empty) program slot; once the slot is
non-empty every further token is pushed as an argument. -/
def splitStep (acc : String × List String) (item : String) : String × List String :=
  if acc.1.isEmpty then (item, acc.2) else (acc.1, acc.2 ++ [item])

/-- The command-text splitting of WatchProcess::run for RunType::Cmd:
`cmd.split(' ')` folded through `splitStep`. -/
def splitCmd (cmd : String) : String × List String :=
  (splitOnSpace cmd).foldl splitStep ("", [])

/-- The OS-side behaviour backing one spawned process: what its stdout and
stderr handles will yield, the `child.wait()` result, and whether an
`abort()` issued against the wait task takes effect before the task has
already completed. -/
structure ProcBehavior where
  stdout : List ReadItem
  stderr : List ReadItem
  waitResult : Except IoError ExitStatus
  abortWins : Bool
deriving Repr

/-- A spawned tokio Child: an output handle is `some` exactly when the spawn
configured the corresponding `Stdio::piped()`. -/
structure Child where
  stdout : Option (List ReadItem)
  stderr : Option (List ReadItem)
  waitResult : Except IoError ExitStatus
  abortWins : Bool

/-- A `Command::spawn` call with the given `Stdio` configuration against the
oracle behaviour `b`: on success the child's handles are present exactly for
the piped streams. -/
def spawnChild (stdoutPiped stderrPiped : Bool) (b : Except IoError ProcBehavior) :
    Except IoError Child :=
  match b with
  | Except.error e => Except.error e
  | Except.ok p =>
    Except.ok { stdout := if stdoutPiped then some p.stdout else none,
                stderr := if stderrPiped then some p.stderr else none,
                waitResult := p.waitResult, abortWins := p.abortWins }

/-- WatchProcess::execute_and_await of config.rs (lines 136-162).  `none`
models the panic of `child.stdout.take().unwrap()` / `child.stderr.take().unwrap()`
when a handle is absent.  Otherwise: both line readers run to completion
(`tokio::join!`, stdout with color 173 and stderr with 167, sharing the
channel), the `child.wait()` task is then spawned; if either reader failed
the wait task is aborted, and awaiting it yields the join error when the
abort takes effect, or the wait result when the task had already finished;
the readers' own error is discarded either way. -/
def execute_and_await (child : Child) (title : String) (b : SinkBudget) :
    Option (List String × SinkBudget × Except WatchError ExitStatus) :=
  match child.stdout, child.stderr with
  | some so, some se =>
    let r1 := listen_out so title 173 b
    let r2 := listen_out se title 167 r1.2.1
    let failed : Bool := !(exOk r1.2.2 && exOk r2.2.2)
    some (r1.1 ++ r2.1, r2.2.1,
      if failed && child.abortWins then
        Except.error (WatchError.ChildProcessExecute JoinError.cancelled)
      else
        match child.waitResult with
        | Except.ok s => Except.ok s
        | Except.error e => Except.error (WatchError.IoChildProcess e))
  | _, _ => none

/-- The WatchProcess struct of config.rs. -/
structure WatchProcess where
  title : String
  cmd : String
  log : Bool
  run_type : Option RunType
  env : List (String × String)
  wait_for : String
deriving Repr

/-- External behaviour for one WatchProcess::run call: the spawn outcome for
the gate (`wait_for`) process, the spawn outcome for the main process, and
the channel budget seen by this runner's senders. -/
structure World where
  gate : Except IoError ProcBehavior
  main : Except IoError ProcBehavior
  budget : SinkBudget
deriving Repr

/-- An observable action of a run: a spawn attempt (program and argv) or a
line delivered to the channel. -/
inductive Event
  | spawned (prog : String) (args : List String)
  | sent (line : String)
deriving DecidableEq, Repr

/-- The gate phase of WatchProcess::run (config.rs lines 52-71): when
`wait_for` is non-empty, `bash -c wait_for` is spawned with both streams
piped, run through execute_and_await, and a non-success status becomes
`AwaitFor`.  Returns `none` on panic, otherwise the events so far, the
remaining sink budget, and the error that aborts the run, if any. -/
def gatePhase (p : WatchProcess) (w : World) :
    Option (List Event × SinkBudget × Option WatchError) :=
  if p.wait_for.isEmpty then some ([], w.budget, none)
  else
    match spawnChild true true w.gate with
    | Except.error e =>
      some ([Event.spawned "bash" ["-c", p.wait_for]], w.budget,
            some (WatchError.IoChildProcess e))
    | Except.ok child =>
      match execute_and_await child p.title w.budget with
      | none => none
      | some (sent, b, Except.error e) =>
        some (Event.spawned "bash" ["-c", p.wait_for] :: sent.map Event.sent, b, some e)
      | some (sent, b, Except.ok status) =>
        some (Event.spawned "bash" ["-c", p.wait_for] :: sent.map Event.sent, b,
              if status.success then none else some (WatchError.AwaitFor status))

/-- The main-command dispatch of WatchProcess::run (config.rs lines 73-108):
the `type` field defaults to `cmd`; RunType::Cmd splits the command text,
RunType::Shell passes the whole text to `bash -c`. -/
def mainSpawnArgs (p : WatchProcess) : String × List String :=
  if p.run_type.getD RunType.Cmd == RunType.Cmd then splitCmd p.cmd
  else ("bash", ["-c", p.cmd])

/-- The main-command phase of WatchProcess::run: spawn (both streams piped),
then execute_and_await; its `Ok(ExitStatus)` value is discarded by the `?`
operator and the surrounding `if/else` expression, so a non-success main
exit status does not fail the run. -/
def mainPhase (p : WatchProcess) (b : SinkBudget) (w : World) :
    Option (List Event × Except WatchError Unit) :=
  let pa := mainSpawnArgs p
  match spawnChild true true w.main with
  | Except.error e =>
    some ([Event.spawned pa.1 pa.2], Except.error (WatchError.IoChildProcess e))
  | Except.ok child =>
    match execute_and_await child p.title b with
    | none => none
    | some (sent, _, Except.error e) =>
      some (Event.spawned pa.1 pa.2 :: sent.map Event.sent, Except.error e)
    | some (sent, _, Except.ok _) =>
      some (Event.spawned pa.1 pa.2 :: sent.map Event.sent, Except.ok ())

/-- WatchProcess::run of config.rs (lines 51-111): gate phase first; a gate
error ends the run before any main spawn attempt; otherwise the main phase
runs with the budget left by the gate.  `none` models a panic. -/
def WatchProcess.run (p : WatchProcess) (w : World) :
    Option (List Event × Except WatchError Unit) :=
  match gatePhase p w with
  | none => none
  | some (evs, _, some e) => some (evs, Except.error e)
  | some (evs, b, none) =>
    match mainPhase p b w with
    | none => none
    | some (evs2, r) => some (evs ++ evs2, r)

namespace MainRs

/-- The WatchProcess struct of main.rs (no `env`, no `wait_for`). -/
structure WatchProcess where
  title : String
  cmd : String
  log : Bool
  run_type : Option RunType
deriving Repr

/-- The line tag of main.rs execute_and_await (lines 95-99): the painted
`"[ <title> ]>"`, a space, the line, a newline; color 173 for every line
(only stdout is read). -/
def taggedLine (title line : String) : String :=
  paintOn 173 ("[ " ++ title ++ " ]>") ++ " " ++ line ++ "\n"

/-- The read-and-send loop of main.rs execute_and_await (lines 94-100):
`next_line().await?` propagates a decode error as `Err` (unlike config.rs);
each send may fail with `SendError`. -/
def readLoop : List ReadItem → String → SinkBudget →
    List String × SinkBudget × Except WatchError Unit
  | [], _, b => ([], b, Except.ok ())
  | ReadItem.decodeError :: _, _, b =>
    ([], b, Except.error (WatchError.IoChildProcess "stream did not contain valid UTF-8"))
  | ReadItem.text l :: rest, title, none =>
    let r := readLoop rest title none
    (taggedLine title l :: r.1, r.2.1, r.2.2)
  | ReadItem.text l :: _, title, some 0 =>
    ([], some 0, Except.error (WatchError.SendError (taggedLine title l)))
  | ReadItem.text l :: rest, title, some (k+1) =>
    let r := readLoop rest title (some k)
    (taggedLine title l :: r.1, r.2.1, r.2.2)

/-- WatchProcess::run of main.rs (lines 41-76): no gate; RunType::Cmd splits
the command text exactly as config.rs does, RunType::Shell is `bash -c cmd`;
only stdout is piped, the `child.wait()` task is detached and its result
never affects the returned value. -/
def WatchProcess.run (p : WatchProcess) (spawn : Except IoError ProcBehavior)
    (b : SinkBudget) : List Event × Except WatchError Unit :=
  let pa : String × List String :=
    if p.run_type.getD RunType.Cmd == RunType.Cmd then splitCmd p.cmd
    else ("bash", ["-c", p.cmd])
  match spawn with
  | Except.error e => ([Event.spawned pa.1 pa.2], Except.error (WatchError.IoChildProcess e))
  | Except.ok pb =>
    let r := readLoop pb.stdout p.title b
    (Event.spawned pa.1 pa.2 :: r.1.map Event.sent, r.2.2)

/-- The Config struct of main.rs (its `filter` field is never read by run). -/
structure Config where
  filter : Option String
  processes : List WatchProcess
deriving Repr

/-- The outcome of the drain loop of main.rs run: `finishedOk` means
`rx.recv()` returned `None` (channel closed and empty) and run returned
`Ok(())`; `writeError` means a `write_all` failed and run returned its
error; `blocked` means every buffered line was consumed but the channel is
not closed, so `rx.recv().await` suspends forever and run never returns. -/
inductive DrainOutcome
  | finishedOk
  | writeError (e : IoError)
  | blocked
deriving DecidableEq, Repr

/-- Whether the drain loop terminated normally. -/
def DrainOutcome.isFinished : DrainOutcome → Bool
  | DrainOutcome.finishedOk => true
  | _ => false

/-- The drain loop of main.rs run (lines 210-213): write each received line
(`writeBudget` bounds how many writes succeed, `none` meaning all); once the
buffered lines are exhausted, the loop ends normally only if the channel has
closed, and otherwise stays suspended in `rx.recv()`. -/
def drainLoop : List String → Option Nat → Bool → List String × DrainOutcome
  | [], _, closed =>
    ([], if closed then DrainOutcome.finishedOk else DrainOutcome.blocked)
  | _ :: _, some 0, _ => ([], DrainOutcome.writeError "stdout write failed")
  | l :: rest, some (k+1), closed =>
    let r := drainLoop rest (some k) closed
    (l :: r.1, r.2)
  | l :: rest, none, closed =>
    let r := drainLoop rest none closed
    (l :: r.1, r.2)

/-- Per-process external behaviour for main.rs run, plus how many stdout
writes succeed. -/
structure MainWorld where
  procs : List (Except IoError ProcBehavior)
  writeBudget : Option Nat

/-- The outcomes of the detached runner tasks spawned by main.rs run
(lines 182-190): each task runs `process.run(sender)` and panics inside
itself on error.  The receiver is held open by the drain loop for as long
as the tasks run, so their sends all succeed (budget `none`). -/
def runnerResults (cfg : Config) (w : MainWorld) :
    List (List Event × Except WatchError Unit) :=
  (cfg.processes.zip w.procs).map (fun pr => WatchProcess.run pr.1 pr.2 none)

/-- Whether `rx.recv()` can ever return `None` during the drain loop: that
requires every Sender to be dropped, but run itself keeps the original `tx`
(main.rs line 180) in scope for its whole body, so even after every spawned
task has finished and dropped its clone at least one Sender remains alive. -/
def channelClosesDuringDrain (_cfg : Config) : Bool := false

/-- The lines a finished runner delivered to the channel. -/
def sentLines (r : List Event × Except WatchError Unit) : List String :=
  r.1.filterMap (fun e => match e with
    | Event.sent l => some l
    | _ => none)

/-- The run function of main.rs (lines 178-215): spawn one detached task per
process, then drain the channel writing each line to stdout.  The runner
outcomes are never examined; the drain loop ends only through a write error
or channel closure. -/
def run (cfg : Config) (w : MainWorld) : List String × DrainOutcome :=
  let lines := ((runnerResults cfg w).map sentLines).flatten
  drainLoop lines w.writeBudget (channelClosesDuringDrain cfg)

end MainRs

/-- The scenario process of the spec: title "b", command "false", default kind. -/
def pFalse : WatchProcess :=
  { title := "b", cmd := "false", log := true, run_type := none,
    env := [], wait_for := "" }

/-- A child that produces no output and exits with status 1. -/
def pbExit1 : ProcBehavior :=
  { stdout := [], stderr := [], waitResult := Except.ok { code := some 1 },
    abortWins := false }

/-- A world in which the main spawn succeeds and the child exits 1; the gate
oracle is irrelevant because `wait_for` is empty. -/
def wFalse : World :=
  { gate := Except.error "gate unused", main := Except.ok pbExit1, budget := none }

/-- A gated process: `wait_for` "exit 1", main command "echo never". -/
def pGate : WatchProcess :=
  { title := "g", cmd := "echo never", log := true, run_type := none,
    env := [], wait_for := "exit 1" }

/-- A world in which the gate spawn succeeds and the gate exits 1; the main
spawn oracle reports an error so that any main spawn attempt would be
visible in the result. -/
def wGate : World :=
  { gate := Except.ok pbExit1, main := Except.error "never spawned",
    budget := none }

/-- A process whose main command emits one stdout line. -/
def pCat : WatchProcess :=
  { title := "t", cmd := "cat", log := true, run_type := none,
    env := [], wait_for := "" }

/-- A child emitting one stdout line, exiting 0, whose wait task is aborted
before it completes. -/
def pbLine : ProcBehavior :=
  { stdout := [ReadItem.text "x"], stderr := [],
    waitResult := Except.ok { code := some 0 }, abortWins := true }

/-- A world whose channel receiver is already closed (no send succeeds). -/
def wClosed : World :=
  { gate := Except.error "gate unused", main := Except.ok pbLine,
    budget := some 0 }

/-- A main.rs process whose spawn fails. -/
def pmFail : MainRs.WatchProcess :=
  { title := "p", cmd := "nosuch", log := true, run_type := none }

/-- A one-process main.rs config whose runner fails to spawn. -/
def cfgFail : MainRs.Config := { filter := none, processes := [pmFail] }

/-- The world for `cfgFail`: the spawn errors, stdout writes all succeed. -/
def wFail : MainRs.MainWorld :=
  { procs := [Except.error "ENOENT"], writeBudget := none }

/-- A main.rs process that runs `true` successfully. -/
def pmOk : MainRs.WatchProcess :=
  { title := "a", cmd := "true", log := true, run_type := none }

/-- A one-process main.rs config whose runner finishes successfully. -/
def cfgOk : MainRs.Config := { filter := none, processes := [pmOk] }

/-- A child for `cfgOk` that emits nothing and exits 0. -/
def pbOk : ProcBehavior :=
  { stdout := [], stderr := [], waitResult := Except.ok { code := some 0 },
    abortWins := false }

/-- The world for `cfgOk`: spawn succeeds, stdout writes all succeed. -/
def wOk : MainRs.MainWorld :=
  { procs := [Except.ok pbOk], writeBudget := none }

/-- The splitting rule as the spec words it, for comparison with `splitCmd`:
the command text is split on single spaces into a program name (the first
token) and an argument list (the remaining tokens, in order). -/
def specSplit (cmd : String) : String × List String :=
  match splitOnSpace cmd with
  | [] => ("", [])
  | h :: rest => (h, rest)

/-- The line format as the spec words it, for comparison with `taggedLine`:
a colored tag consisting exactly of the bracketed title, then a single
space, then the raw text, then a newline. -/
def specLine (color : Nat) (title line : String) : String :=
  paintOn color ("[ " ++ title ++ " ]") ++ " " ++ line ++ "\n"

theorem listen_out_none (items : List ReadItem) (t : String) (c : Nat) :
    listen_out items t c none =
      ((readableLines items).map (taggedLine c t), none, Except.ok ()) := by
  induction items with
  | nil => rfl
  | cons i rest ih =>
    cases i with
    | text l => simp [listen_out, readableLines, ih]
    | decodeError => rfl

theorem listen_out_some_err_iff (items : List ReadItem) (t : String) (c : Nat) :
    ∀ k, exOk (listen_out items t c (some k)).2.2 = false ↔
      k < (readableLines items).length := by
  induction items with
  | nil => intro k; simp [listen_out, readableLines, exOk]
  | cons i rest ih =>
    cases i with
    | decodeError => intro k; simp [listen_out, readableLines, exOk]
    | text l =>
      intro k
      cases k with
      | zero => simp [listen_out, readableLines, exOk]
      | succ k =>
        simpa [listen_out, readableLines, Nat.succ_lt_succ_iff] using ih k

theorem listen_out_err_send (t : String) (c : Nat) :
    ∀ (items : List ReadItem) (b : SinkBudget) (e : WatchError),
      (listen_out items t c b).2.2 = Except.error e →
      ∃ l, e = WatchError.SendError l := by
  intro items
  induction items with
  | nil => intro b e h; simp [listen_out] at h
  | cons i rest ih =>
    cases i with
    | decodeError => intro b e h; simp [listen_out] at h
    | text l =>
      intro b e h
      match b with
      | none => exact ih none e (by simpa [listen_out] using h)
      | some 0 =>
        refine ⟨taggedLine c t l, ?_⟩
        simpa [listen_out] using h.symm
      | some (k+1) => exact ih (some k) e (by simpa [listen_out] using h)

theorem listen_out_sent_take (t : String) (c : Nat) :
    ∀ (items : List ReadItem) (k : Nat), k < (readableLines items).length →
      (listen_out items t c (some k)).1 =
        ((readableLines items).take k).map (taggedLine c t) := by
  intro items
  induction items with
  | nil => intro k h; simp [readableLines] at h
  | cons i rest ih =>
    cases i with
    | decodeError => intro k h; simp [readableLines] at h
    | text l =>
      intro k h
      cases k with
      | zero => simp [listen_out, readableLines]
      | succ k =>
        have hk : k < (readableLines rest).length := by
          simpa [readableLines, Nat.succ_lt_succ_iff] using h
        simp [listen_out, readableLines, ih k hk]

theorem listen_out_mem_shape (t : String) (c : Nat) :
    ∀ (items : List ReadItem) (b : SinkBudget) (m : String),
      m ∈ (listen_out items t c b).1 →
      ∃ raw, raw ∈ readableLines items ∧
        m = paintOn c ("[ " ++ t ++ " ] ") ++ " " ++ raw ++ "\n" := by
  intro items
  induction items with
  | nil => intro b m h; simp [listen_out] at h
  | cons i rest ih =>
    cases i with
    | decodeError => intro b m h; simp [listen_out] at h
    | text l =>
      intro b m h
      match b with
      | none =>
        simp only [listen_out, List.mem_cons] at h
        rcases h with h | h
        · exact ⟨l, by simp [readableLines], by simpa [taggedLine] using h⟩
        · obtain ⟨raw, hr, hm⟩ := ih none m h
          exact ⟨raw, by simp [readableLines, hr], hm⟩
      | some 0 => simp [listen_out] at h
      | some (k+1) =>
        simp only [listen_out, List.mem_cons] at h
        rcases h with h | h
        · exact ⟨l, by simp [readableLines], by simpa [taggedLine] using h⟩
        · obtain ⟨raw, hr, hm⟩ := ih (some k) m h
          exact ⟨raw, by simp [readableLines, hr], hm⟩

theorem listen_out_decode_eos (t : String) (c : Nat) :
    ∀ (L : List String) (b : SinkBudget),
      listen_out (L.map ReadItem.text ++ [ReadItem.decodeError]) t c b =
        listen_out (L.map ReadItem.text) t c b := by
  intro L
  induction L with
  | nil => intro b; rfl
  | cons l L ih =>
    intro b
    match b with
    | none => simp [listen_out, ih]
    | some 0 => rfl
    | some (k+1) => simp [listen_out, ih]

theorem foldl_splitStep_nonempty (ts : List String) :
    ∀ (c : String) (as : List String), c.isEmpty = false →
      ts.foldl splitStep (c, as) = (c, as ++ ts) := by
  induction ts with
  | nil => intro c as _; simp
  | cons t ts ih =>
    intro c as h
    have hstep : splitStep (c, as) t = (c, as ++ [t]) := by simp [splitStep, h]
    calc (t :: ts).foldl splitStep (c, as)
        = ts.foldl splitStep (c, as ++ [t]) := by rw [List.foldl_cons, hstep]
      _ = (c, (as ++ [t]) ++ ts) := ih c (as ++ [t]) h
      _ = (c, as ++ t :: ts) := by simp

theorem foldl_splitStep_characterization (ts : List String) :
    ts.foldl splitStep ("", []) =
      match ts.dropWhile String.isEmpty with
      | [] => ("", [])
      | h :: rest => (h, rest) := by
  induction ts with
  | nil => rfl
  | cons t ts ih =>
    by_cases he : t.isEmpty = true
    · have ht : t = "" := (String.isEmpty_iff t).mp he
      have hemp : "".isEmpty = true := rfl
      have hstep : splitStep ("", []) t = ("", []) := by simp [splitStep, hemp, ht]
      rw [List.foldl_cons, hstep, ih, List.dropWhile_cons]
      simp [he]
    · have he2 : t.isEmpty = false := by simpa using he
      have hemp : "".isEmpty = true := rfl
      have hstep : splitStep ("", []) t = (t, []) := by simp [splitStep, hemp]
      rw [List.foldl_cons, hstep, foldl_splitStep_nonempty ts t [] he2,
        List.dropWhile_cons]
      simp [he2]

theorem spawnChild_ok (pb : ProcBehavior) :
    spawnChild true true (Except.ok pb) =
      Except.ok { stdout := some pb.stdout, stderr := some pb.stderr,
                  waitResult := pb.waitResult, abortWins := pb.abortWins } := rfl

theorem execute_and_await_budget_none (pb : ProcBehavior) (t : String)
    (s : ExitStatus) (hw : pb.waitResult = Except.ok s) :
    execute_and_await
        { stdout := some pb.stdout, stderr := some pb.stderr,
          waitResult := pb.waitResult, abortWins := pb.abortWins } t none =
      some ((readableLines pb.stdout).map (taggedLine 173 t) ++
              (readableLines pb.stderr).map (taggedLine 167 t),
            none, Except.ok s) := by
  simp [execute_and_await, listen_out_none, exOk, hw]

theorem execute_result_not_send (child : Child) (t : String) (b : SinkBudget)
    (sent : List String) (b2 : SinkBudget) (res : Except WatchError ExitStatus)
    (h : execute_and_await child t b = some (sent, b2, res)) (l : String) :
    res ≠ Except.error (WatchError.SendError l) := by
  intro hl
  subst hl
  cases child with
  | mk so se wr aw =>
    cases so with
    | none => simp [execute_and_await] at h
    | some so =>
      cases se with
      | none => simp [execute_and_await] at h
      | some se =>
        simp only [execute_and_await] at h
        have h' := Option.some.inj h
        have hres := congrArg (fun x => x.2.2) h'
        simp only at hres
        split at hres
        · simp at hres
        · cases wr with
          | ok s => simp at hres
          | error e => simp at hres

theorem gatePhase_empty (p : WatchProcess) (w : World)
    (h : p.wait_for.isEmpty = true) :
    gatePhase p w = some ([], w.budget, none) := by
  simp [gatePhase, h]

theorem gatePhase_err_not_send (p : WatchProcess) (w : World) (evs : List Event)
    (b : SinkBudget) (e : WatchError) (l : String)
    (h : gatePhase p w = some (evs, b, some e)) :
    e ≠ WatchError.SendError l := by
  intro hl
  subst hl
  unfold gatePhase at h
  split at h
  · simp at h
  · split at h
    · simp at h
    · split at h
      · exact Option.noConfusion h
      · rename_i sent b' e' heq
        simp only [Option.some.injEq, Prod.mk.injEq] at h
        obtain ⟨-, -, he⟩ := h
        exact execute_result_not_send _ _ _ _ _ _ heq l (by rw [he])
      · rename_i sent b' status heq
        simp only [Option.some.injEq, Prod.mk.injEq] at h
        obtain ⟨-, -, he⟩ := h
        split at he
        · exact Option.noConfusion he
        · simp at he

theorem mainPhase_err_not_send (p : WatchProcess) (b : SinkBudget) (w : World)
    (evs : List Event) (r : Except WatchError Unit) (l : String)
    (h : mainPhase p b w = some (evs, r)) :
    r ≠ Except.error (WatchError.SendError l) := by
  intro hl
  subst hl
  unfold mainPhase at h
  split at h
  · simp at h
  · split at h
    · exact Option.noConfusion h
    · rename_i sent b' e' heq
      simp only [Option.some.injEq, Prod.mk.injEq] at h
      obtain ⟨-, he⟩ := h
      have he2 : e' = WatchError.SendError l := Except.error.inj he
      exact execute_result_not_send _ _ _ _ _ _ heq l (by rw [he2])
    · simp at h

theorem spawnChild_piped (b : Except IoError ProcBehavior) (child : Child)
    (h : spawnChild true true b = Except.ok child) :
    ∃ pb, b = Except.ok pb ∧
      child = { stdout := some pb.stdout, stderr := some pb.stderr,
                waitResult := pb.waitResult, abortWins := pb.abortWins } := by
  cases b with
  | error e => simp [spawnChild] at h
  | ok pb => exact ⟨pb, rfl, (Except.ok.inj h).symm⟩

theorem execute_piped_exists (pb : ProcBehavior) (t : String) (b : SinkBudget) :
    ∃ r, execute_and_await
        { stdout := some pb.stdout, stderr := some pb.stderr,
          waitResult := pb.waitResult, abortWins := pb.abortWins } t b = some r :=
  ⟨_, rfl⟩

theorem gatePhase_isSome (p : WatchProcess) (w : World) :
    (gatePhase p w).isSome = true := by
  unfold gatePhase
  split
  · rfl
  · split
    · rfl
    · rename_i child heq
      obtain ⟨pb, -, hc⟩ := spawnChild_piped _ _ heq
      subst hc
      obtain ⟨⟨sent, b2, res⟩, hr⟩ := execute_piped_exists pb p.title w.budget
      rw [hr]
      cases res <;> rfl

theorem mainPhase_isSome (p : WatchProcess) (b : SinkBudget) (w : World) :
    (mainPhase p b w).isSome = true := by
  simp only [mainPhase]
  split
  · rfl
  · rename_i child heq
    obtain ⟨pb, -, hc⟩ := spawnChild_piped _ _ heq
    subst hc
    obtain ⟨⟨sent, b2, res⟩, hr⟩ := execute_piped_exists pb p.title b
    rw [hr]
    cases res <;> rfl

theorem run_isSome (p : WatchProcess) (w : World) :
    (WatchProcess.run p w).isSome = true := by
  unfold WatchProcess.run
  obtain ⟨g, hg⟩ := Option.isSome_iff_exists.mp (gatePhase_isSome p w)
  rw [hg]
  obtain ⟨evs, b, oe⟩ := g
  cases oe with
  | some e => rfl
  | none =>
    obtain ⟨m, hm⟩ := Option.isSome_iff_exists.mp (mainPhase_isSome p b w)
    show (match mainPhase p b w with
          | none => none
          | some (evs2, r) => some (evs ++ evs2, r)).isSome = true
    rw [hm]
    obtain ⟨evs2, r⟩ := m
    rfl

theorem mainPhase_head (p : WatchProcess) (b : SinkBudget) (w : World) :
    (mainPhase p b w).map (fun x => x.1.head?) =
      some (some (Event.spawned (mainSpawnArgs p).1 (mainSpawnArgs p).2)) := by
  simp only [mainPhase]
  split
  · rfl
  · rename_i child heq
    obtain ⟨pb, -, hc⟩ := spawnChild_piped _ _ heq
    subst hc
    obtain ⟨⟨sent, b2, res⟩, hr⟩ := execute_piped_exists pb p.title b
    rw [hr]
    cases res <;> rfl

theorem run_head_event (p : WatchProcess) (w : World)
    (hg : p.wait_for.isEmpty = true) :
    (WatchProcess.run p w).map (fun x => x.1.head?) =
      some (some (Event.spawned (mainSpawnArgs p).1 (mainSpawnArgs p).2)) := by
  unfold WatchProcess.run
  rw [gatePhase_empty p w hg]
  show (match mainPhase p w.budget w with
        | none => none
        | some (evs2, r) => some ([] ++ evs2, r)).map
        (fun x : List Event × Except WatchError Unit => x.1.head?) =
      some (some (Event.spawned (mainSpawnArgs p).1 (mainSpawnArgs p).2))
  have hm := mainPhase_head p w.budget w
  cases hmm : mainPhase p w.budget w with
  | none => rw [hmm] at hm; simp at hm
  | some m =>
    rw [hmm] at hm
    obtain ⟨evs2, r⟩ := m
    simp only [Option.map_some', Option.some.injEq] at hm
    exact congrArg some hm

theorem gatePhase_gate_fail (p : WatchProcess) (w : World) (pb : ProcBehavior)
    (s : ExitStatus)
    (hg : p.wait_for.isEmpty = false)
    (hs : w.gate = Except.ok pb)
    (hb : w.budget = none)
    (hw : pb.waitResult = Except.ok s)
    (hf : s.success = false) :
    gatePhase p w =
      some (Event.spawned "bash" ["-c", p.wait_for] ::
              ((readableLines pb.stdout).map (taggedLine 173 p.title) ++
               (readableLines pb.stderr).map (taggedLine 167 p.title)).map Event.sent,
            none, some (WatchError.AwaitFor s)) := by
  obtain ⟨g, m, bu⟩ := w
  have hg2 : g = Except.ok pb := hs
  have hb2 : bu = none := hb
  subst hg2
  subst hb2
  simp [gatePhase, hg, spawnChild, execute_and_await, listen_out_none, exOk,
    hw, hf]

theorem mainPhase_ok (p : WatchProcess) (w : World) (pb : ProcBehavior)
    (s : ExitStatus)
    (hs : w.main = Except.ok pb) (hw : pb.waitResult = Except.ok s) :
    mainPhase p none w =
      some (Event.spawned (mainSpawnArgs p).1 (mainSpawnArgs p).2 ::
              ((readableLines pb.stdout).map (taggedLine 173 p.title) ++
               (readableLines pb.stderr).map (taggedLine 167 p.title)).map Event.sent,
            Except.ok ()) := by
  obtain ⟨g, m, bu⟩ := w
  have hm2 : m = Except.ok pb := hs
  subst hm2
  simp [mainPhase, spawnChild, execute_and_await, listen_out_none, exOk, hw]

theorem drainLoop_not_finished (lines : List String) :
    ∀ wb : Option Nat,
      MainRs.DrainOutcome.isFinished (MainRs.drainLoop lines wb false).2 = false := by
  induction lines with
  | nil => intro wb; rfl
  | cons l rest ih =>
    intro wb
    match wb with
    | none => simpa [MainRs.drainLoop] using ih none
    | some 0 => rfl
    | some (k+1) => simpa [MainRs.drainLoop] using ih (some k)

theorem drainLoop_none_blocked (lines : List String) :
    (MainRs.drainLoop lines none false).2 = MainRs.DrainOutcome.blocked := by
  induction lines with
  | nil => rfl
  | cons l rest ih => simpa [MainRs.drainLoop] using ih

/-- Claim C1, counterexample: running the spec scenario
`(title "b", command "false", kind Command)` against a world in which the
spawn succeeds and the child exits with status 1 yields `Ok(())`, not a
failure outcome carrying the exit status: no `ExitFailed`-like error exists
in WatchError and the exit status of the main command is discarded. -/
theorem run_false_returns_ok :
    WatchProcess.run pFalse wFalse =
      some ([Event.spawned "false" []], Except.ok ()) := by decide

/-- Claim C1, amended: whenever the gate is absent, the main spawn succeeds
and both line readers finish cleanly (open channel), WatchProcess::run
returns `Ok(())` whatever exit status the main command reports, because
execute_and_await's `Ok(ExitStatus)` value is discarded at the call site. -/
theorem run_ok_despite_nonzero_exit (p : WatchProcess) (w : World)
    (pb : ProcBehavior) (s : ExitStatus)
    (hg : p.wait_for.isEmpty = true)
    (hs : w.main = Except.ok pb)
    (hb : w.budget = none)
    (hw : pb.waitResult = Except.ok s) :
    WatchProcess.run p w =
      some (Event.spawned (mainSpawnArgs p).1 (mainSpawnArgs p).2 ::
              ((readableLines pb.stdout).map (taggedLine 173 p.title) ++
               (readableLines pb.stderr).map (taggedLine 167 p.title)).map Event.sent,
            Except.ok ()) := by
  unfold WatchProcess.run
  rw [gatePhase_empty p w hg, hb]
  show (match mainPhase p none w with
        | none => none
        | some (evs2, r) => some ([] ++ evs2, r)) =
      some (Event.spawned (mainSpawnArgs p).1 (mainSpawnArgs p).2 ::
              ((readableLines pb.stdout).map (taggedLine 173 p.title) ++
               (readableLines pb.stderr).map (taggedLine 167 p.title)).map Event.sent,
            Except.ok ())
  rw [mainPhase_ok p w pb s hs hw]
  rfl

/-- Claim C1, witness: the amended theorem applied to the concrete scenario
process (`false`, exiting with the non-success status 1). -/
theorem run_ok_despite_nonzero_exit_witness :
    ExitStatus.success { code := some 1 } = false ∧
      WatchProcess.run pFalse wFalse =
        some ([Event.spawned "false" []], Except.ok ()) := by
  refine ⟨by decide, ?_⟩
  have h := run_ok_despite_nonzero_exit pFalse wFalse pbExit1
    { code := some 1 } rfl rfl rfl rfl
  simpa using h

/-- Claim C4 (confirmed): when the gate spawns, its readers finish cleanly
and it exits with a non-success status `s`, WatchProcess::run ends with
`AwaitFor s` (the GateFailed outcome carrying the gate's status) and its
event trace contains exactly the one gate spawn (`bash -c wait_for`) and the
gate's output lines: the main command is never spawned.  The failure is
returned as this runner's own result only. -/
theorem gate_failure_blocks_main (p : WatchProcess) (w : World)
    (pb : ProcBehavior) (s : ExitStatus)
    (hg : p.wait_for.isEmpty = false)
    (hs : w.gate = Except.ok pb)
    (hb : w.budget = none)
    (hw : pb.waitResult = Except.ok s)
    (hf : s.success = false) :
    WatchProcess.run p w =
      some (Event.spawned "bash" ["-c", p.wait_for] ::
              ((readableLines pb.stdout).map (taggedLine 173 p.title) ++
               (readableLines pb.stderr).map (taggedLine 167 p.title)).map Event.sent,
            Except.error (WatchError.AwaitFor s)) := by
  unfold WatchProcess.run
  rw [gatePhase_gate_fail p w pb s hg hs hb hw hf]

/-- Claim C4, witness: the theorem applied to a concrete gated process with
`wait_for` "exit 1" and main command "echo never"; the trace shows only the
gate spawn, never an "echo" spawn and no "never" line. -/
theorem gate_failure_blocks_main_witness :
    WatchProcess.run pGate wGate =
      some ([Event.spawned "bash" ["-c", "exit 1"]],
            Except.error (WatchError.AwaitFor { code := some 1 })) := by
  have h := gate_failure_blocks_main pGate wGate pbExit1
    { code := some 1 } rfl rfl rfl rfl rfl
  simpa using h

/-- Claim C5, counterexample: with the channel already closed (`some 0`
budget) the stdout reader fails with `SendError`, but WatchProcess::run
returns `ChildProcessExecute (JoinError.cancelled)` — the error produced by
awaiting the aborted `child.wait()` task — not the reader's sink-closed
failure. -/
theorem reader_failure_yields_join_error :
    (listen_out [ReadItem.text "x"] "t" 173 (some 0)).2.2 =
        Except.error (WatchError.SendError (taggedLine 173 "t" "x")) ∧
      WatchProcess.run pCat wClosed =
        some ([Event.spawned "cat" []],
              Except.error (WatchError.ChildProcessExecute JoinError.cancelled)) := by
  constructor
  · decide
  · decide

/-- Claim C5, amended: a LineReader failure aborts the wait task, and the
runner's outcome is whatever awaiting that aborted task produces — never the
reader's own `SendError`: WatchProcess::run can return `IoChildProcess`,
`ChildProcessExecute`, `AwaitFor` or success, but no `SendError` outcome is
ever propagated. -/
theorem run_never_returns_send_error (p : WatchProcess) (w : World)
    (evs : List Event) (r : Except WatchError Unit) (l : String)
    (h : WatchProcess.run p w = some (evs, r)) :
    r ≠ Except.error (WatchError.SendError l) := by
  intro hl
  subst hl
  unfold WatchProcess.run at h
  split at h
  · exact Option.noConfusion h
  · rename_i evs0 b e heq
    simp only [Option.some.injEq, Prod.mk.injEq] at h
    obtain ⟨-, he⟩ := h
    exact gatePhase_err_not_send p w evs0 b e l heq (Except.error.inj he)
  · rename_i evs0 b heq
    split at h
    · exact Option.noConfusion h
    · rename_i evs2 r2 heq2
      simp only [Option.some.injEq, Prod.mk.injEq] at h
      obtain ⟨-, he⟩ := h
      exact mainPhase_err_not_send p b w evs2 r2 l heq2 he

/-- Claim C5, witness: the amended theorem applied at the concrete closed
channel run, whose outcome is the join error of the aborted wait task. -/
theorem run_never_returns_send_error_witness :
    (Except.error (WatchError.ChildProcessExecute JoinError.cancelled) :
        Except WatchError Unit) ≠
      Except.error (WatchError.SendError (taggedLine 173 "t" "x")) :=
  run_never_returns_send_error pCat wClosed [Event.spawned "cat" []]
    (Except.error (WatchError.ChildProcessExecute JoinError.cancelled))
    (taggedLine 173 "t" "x") (by decide)

/-- Claim C2, counterexample: a config whose single runner fails to spawn.
The runner's outcome is `IoChildProcess "ENOENT"`, yet main.rs run does not
return it (or anything): its drain loop consumes the zero buffered lines and
then stays blocked in `rx.recv()`, because run's own `tx` keeps the channel
open.  No aggregate outcome is ever produced. -/
theorem orch_run_ignores_runner_failure :
    MainRs.run cfgFail wFail = ([], MainRs.DrainOutcome.blocked) ∧
      MainRs.runnerResults cfgFail wFail =
        [([Event.spawned "nosuch" []],
          Except.error (WatchError.IoChildProcess "ENOENT"))] := by
  constructor
  · decide
  · decide

/-- Claim C2, amended: main.rs run aggregates nothing.  A runner failure
panics inside its own detached task and is never returned; whenever every
stdout write succeeds, run writes the buffered lines and then blocks forever
in `rx.recv()` (it retains the original Sender, so the channel never
closes), returning neither success nor any runner's failure. -/
theorem orch_run_blocks_forever (cfg : MainRs.Config) (w : MainRs.MainWorld)
    (h : w.writeBudget = none) :
    (MainRs.run cfg w).2 = MainRs.DrainOutcome.blocked := by
  unfold MainRs.run
  rw [h]
  exact drainLoop_none_blocked _

/-- Claim C2, witness: the amended theorem applied to the failing-runner
config. -/
theorem orch_run_blocks_forever_witness :
    (MainRs.run cfgFail wFail).2 = MainRs.DrainOutcome.blocked :=
  orch_run_blocks_forever cfgFail wFail rfl

/-- Claim C3, counterexample: a config whose single runner finishes with
`Ok(())`.  Every ProcessRunner has reached its terminal state, yet the drain
loop does not terminate: it is blocked in `rx.recv()`, because channel
closure — the loop's only exit — requires every Sender to be dropped and run
itself still holds one. -/
theorem orch_drain_not_terminated_after_finish :
    MainRs.run cfgOk wOk = ([], MainRs.DrainOutcome.blocked) ∧
      MainRs.runnerResults cfgOk wOk =
        [([Event.spawned "true" []], Except.ok ())] := by
  constructor
  · decide
  · decide

/-- Claim C3, amended: the drain loop's termination condition is channel
closure (`rx.recv()` returning `None`), not a join over the ProcessRunners
— main.rs run never joins its spawned tasks — and since run keeps the
original Sender alive for its whole body that condition never holds: the
loop never finishes normally, for any config and any world. -/
theorem orch_drain_never_finishes (cfg : MainRs.Config) (w : MainRs.MainWorld) :
    MainRs.DrainOutcome.isFinished (MainRs.run cfg w).2 = false := by
  unfold MainRs.run
  exact drainLoop_not_finished _ _

/-- Claim C6, counterexample: on a command text starting with a space the
fold of WatchProcess::run and the split described by the spec disagree: the
fold skips the leading empty token and takes "echo" as the program, while
the spec's "first token / remaining tokens" reading yields the empty program
name with "echo" as an argument. -/
theorem splitCmd_leading_space_diverges :
    splitCmd " echo hi" = ("echo", ["hi"]) ∧
      specSplit " echo hi" = ("", ["echo", "hi"]) ∧
      splitCmd " echo hi" ≠ specSplit " echo hi" := by
  refine ⟨by decide, by decide, by decide⟩

/-- Claim C6, amended: for `kind = Command` the program name is the first
non-empty token of the single-space split and the arguments are all tokens
after it, in order (tokens before the first non-empty one are dropped;
empty tokens after it are kept; no quoting is honored) — on command texts
not starting with a space this coincides with first-token/rest.  For
`kind = Shell` the main spawn is `bash -c` with the entire command text
unmodified. -/
theorem splitCmd_characterization_and_dispatch :
    (∀ cmd : String, splitCmd cmd =
        match (splitOnSpace cmd).dropWhile String.isEmpty with
        | [] => ("", [])
        | h :: rest => (h, rest)) ∧
    (∀ (p : WatchProcess) (w : World), p.wait_for.isEmpty = true →
      (WatchProcess.run p w).map (fun x => x.1.head?) =
        some (some (if p.run_type.getD RunType.Cmd == RunType.Cmd then
            Event.spawned (splitCmd p.cmd).1 (splitCmd p.cmd).2
          else Event.spawned "bash" ["-c", p.cmd]))) := by
  constructor
  · intro cmd
    exact foldl_splitStep_characterization (splitOnSpace cmd)
  · intro p w hg
    have h := run_head_event p w hg
    by_cases hc : (p.run_type.getD RunType.Cmd == RunType.Cmd) = true
    · simpa [mainSpawnArgs, hc] using h
    · simp only [Bool.not_eq_true] at hc
      simpa [mainSpawnArgs, hc] using h

/-- Claim C6, witness: the dispatch half applied to a concrete Shell-mode
process whose command text contains a space, passed whole to `bash -c`. -/
theorem splitCmd_characterization_witness :
    (WatchProcess.run
        { title := "s", cmd := "echo a b", log := true,
          run_type := some RunType.Shell, env := [], wait_for := "" }
        wFalse).map (fun x => x.1.head?) =
      some (some (Event.spawned "bash" ["-c", "echo a b"])) := by
  have h := splitCmd_characterization_and_dispatch.2
    { title := "s", cmd := "echo a b", log := true,
      run_type := some RunType.Shell, env := [], wait_for := "" }
    wFalse rfl
  simpa using h

/-- Claim C7, counterexample: the line actually forwarded for raw text "x"
of process "t" is not the spec's colored `"[ t ]"` tag plus a single space
plus the text: the painted region contains a trailing space, so two spaces
separate the closing bracket from the text. -/
theorem taggedLine_has_extra_space :
    (listen_out [ReadItem.text "x"] "t" 173 none).1 = [taggedLine 173 "t" "x"] ∧
      taggedLine 173 "t" "x" ≠ specLine 173 "t" "x" := by
  refine ⟨by decide, by decide⟩

/-- Claim C7, amended: every line forwarded to the sink by listen_out is the
painted tag `"[ <title> ] "` — the trailing space sits inside the colored
region — followed by one further space, the raw text of one stream line,
and a terminating newline. -/
theorem sent_line_format (t : String) (c : Nat) (items : List ReadItem)
    (b : SinkBudget) (m : String) (h : m ∈ (listen_out items t c b).1) :
    ∃ raw, raw ∈ readableLines items ∧
      m = paintOn c ("[ " ++ t ++ " ] ") ++ " " ++ raw ++ "\n" :=
  listen_out_mem_shape t c items b m h

/-- Claim C7, witness: the amended theorem applied to a one-line stream. -/
theorem sent_line_format_witness :
    ∃ raw, raw ∈ readableLines [ReadItem.text "x"] ∧
      taggedLine 173 "t" "x" = paintOn 173 ("[ " ++ "t" ++ " ] ") ++ " " ++ raw ++ "\n" :=
  sent_line_format "t" 173 [ReadItem.text "x"] none (taggedLine 173 "t" "x")
    (by decide)

/-- Claim C8 (confirmed): listen_out fails only through the sink.  Any error
it returns is a `SendError`; it errors exactly when the receiver closes
(budget `some k`) before all readable lines are pushed; on a failed push it
aborts immediately, having delivered exactly the first `k` lines; and a
malformed (non-UTF-8) tail behaves exactly like end-of-stream, ending the
reader with the same (success) result. -/
theorem listen_out_error_characterization :
    (∀ (items : List ReadItem) (t : String) (c : Nat) (b : SinkBudget)
        (e : WatchError), (listen_out items t c b).2.2 = Except.error e →
        ∃ l, e = WatchError.SendError l) ∧
    (∀ (items : List ReadItem) (t : String) (c : Nat) (b : SinkBudget),
        exOk (listen_out items t c b).2.2 = false ↔
          ∃ k, b = some k ∧ k < (readableLines items).length) ∧
    (∀ (items : List ReadItem) (t : String) (c : Nat) (k : Nat),
        k < (readableLines items).length →
        (listen_out items t c (some k)).1 =
          ((readableLines items).take k).map (taggedLine c t)) ∧
    (∀ (L : List String) (t : String) (c : Nat) (b : SinkBudget),
        listen_out (L.map ReadItem.text ++ [ReadItem.decodeError]) t c b =
          listen_out (L.map ReadItem.text) t c b) := by
  refine ⟨?_, ?_, ?_, ?_⟩
  · intro items t c b e h
    exact listen_out_err_send t c items b e h
  · intro items t c b
    cases b with
    | none => simp [listen_out_none, exOk]
    | some k =>
      rw [listen_out_some_err_iff items t c k]
      simp
  · intro items t c k h
    exact listen_out_sent_take t c items k h
  · intro L t c b
    exact listen_out_decode_eos t c L b

/-- Claim C8, witness: the error criterion applied to a two-line stream with
a one-send budget: the reader fails, and it fails with a SendError carrying
the second formatted line after delivering exactly the first. -/
theorem listen_out_error_characterization_witness :
    exOk (listen_out [ReadItem.text "a", ReadItem.text "b"] "t" 173
        (some 1)).2.2 = false :=
  (listen_out_error_characterization.2.1
      [ReadItem.text "a", ReadItem.text "b"] "t" 173 (some 1)).mpr
    ⟨1, rfl, by decide⟩

/-- Claim C9 (confirmed): WatchProcess::run never panics on the
`child.stdout.take().unwrap()` / `child.stderr.take().unwrap()` calls of
execute_and_await: every spawn site (gate, Cmd, Shell) configures both
streams as `Stdio::piped()`, so both handles are always present and run
always produces a value (`none` in the model is the panic case). -/
theorem unwraps_never_panic (p : WatchProcess) (w : World) :
    (WatchProcess.run p w).isSome = true :=
  run_isSome p w

/-- Claim C10 (confirmed): the `log` field of a WatchProcess is parsed but
never read by the run logic: two processes differing only in `log` produce
identical runs — the same events (spawns and lines sent to the sink) and
the same result — in every world. -/
theorem run_ignores_log (t c : String) (l1 l2 : Bool) (rt : Option RunType)
    (e : List (String × String)) (wf : String) (w : World) :
    WatchProcess.run
        { title := t, cmd := c, log := l1, run_type := rt, env := e,
          wait_for := wf } w =
      WatchProcess.run
        { title := t, cmd := c, log := l2, run_type := rt, env := e,
          wait_for := wf } w := rfl
